import Mathlib

/-!
Verification development for the meal-finder backend core: the connection
registry (`backend/utils/clients.py`, class `SessionManager`), the tool
dispatch and conversation orchestrator (`backend/services/assistant.py`),
the socket event handlers (`backend/routes/socket_routes.py`), and the
image batch analyzer (`backend/services/image_processor.py`).

Python dictionaries holding the registry state are modelled as functions
into `Option`; Python sets of session ids are modelled as duplicate-free
lists (insertion adds at the tail only when absent).  External
collaborators (MongoDB, OpenAI, Bedrock, HTTP) are modelled at their call
boundary as oracle values or functions returning `Except String`, where
`Except.error m` stands for a raised exception whose `str(e)` is `m`.
-/

/-- A JSON-ish value, standing for the Python values that flow through the
tool dispatcher (dict / list / str / number / bool / None). -/
inductive Json where
  | null : Json
  | bool (b : Bool) : Json
  | num (n : Int) : Json
  | str (s : String) : Json
  | arr (l : List Json) : Json
  | obj (l : List (String × Json)) : Json

/-- Python truthiness of a `Json` value (`None`, `False`, `0`, `""`, `[]`
and the empty dict are falsy). -/
def pyTruthy : Json → Bool
  | Json.null => false
  | Json.bool b => b
  | Json.num n => n != 0
  | Json.str s => s != ""
  | Json.arr l => !l.isEmpty
  | Json.obj l => !l.isEmpty

/-- Python truthiness of an optional string (absent key or empty string is
falsy). -/
def truthyStr : Option String → Option String
  | none => none
  | some s => if s = "" then none else some s

/-! ## Connection registry (`SessionManager` in `backend/utils/clients.py`)

`active_sessions : Dict[str, Optional[str]]` maps a session id to its
current chat id (or `None`); `chat_sessions : Dict[str, Set[str]]` maps a
chat id to its member set. -/

structure Registry where
  active : String → Option (Option String)
  chats : String → Option (List String)

def emptyRegistry : Registry :=
  { active := fun _ => none, chats := fun _ => none }

/-- Source `SessionManager.add_session`: `self.active_sessions[sid] = None`. -/
def add_session (r : Registry) (sid : String) : Registry :=
  { r with active := fun x => if x = sid then some none else r.active x }

/-- Source `SessionManager.join_chat`: set `active_sessions[sid] = chat_id`,
create the chat entry if absent, and add `sid` to the member set. -/
def join_chat (r : Registry) (sid chat_id : String) : Registry :=
  let members := (r.chats chat_id).getD []
  let members' := if sid ∈ members then members else members ++ [sid]
  { active := fun x => if x = sid then some (some chat_id) else r.active x,
    chats := fun x => if x = chat_id then some members' else r.chats x }

/-- Source `SessionManager.remove_session`: if `sid` is registered, remove it from
its current chat's member set (when that chat id is truthy and has an
entry), drop the entry if the set became empty, and delete the session.
The Python `set.remove` presupposes membership; on the states reachable by
these three operations the element is always present (see
`c10_registry_invariant`), so it is modelled as a filter. -/
def remove_session (r : Registry) (sid : String) : Registry :=
  match r.active sid with
  | none => r
  | some ochat =>
    let r1 :=
      match ochat with
      | none => r
      | some chat_id =>
        if chat_id = "" then r
        else
          match r.chats chat_id with
          | none => r
          | some members =>
            let members' := members.filter (fun x => x ≠ sid)
            if members' = [] then
              { r with chats := fun x => if x = chat_id then none else r.chats x }
            else
              { r with chats := fun x => if x = chat_id then some members' else r.chats x }
    { r1 with active := fun x => if x = sid then none else r1.active x }

/-- Source `SessionManager.get_chat_members`: `chat_sessions.get(chat_id, set())`. -/
def get_chat_members (r : Registry) (chat_id : String) : List String :=
  (r.chats chat_id).getD []

/-- Source `SessionManager.get_session_chat`: `active_sessions.get(sid)`; a missing
session and a session with no chat both yield `None`. -/
def get_session_chat (r : Registry) (sid : String) : Option String :=
  (r.active sid).bind id

/-- The three registry operations, for stating state-machine invariants. -/
inductive RegOp where
  | add (sid : String)
  | remove (sid : String)
  | join (sid chat_id : String)

def applyOp (r : Registry) : RegOp → Registry
  | RegOp.add sid => add_session r sid
  | RegOp.remove sid => remove_session r sid
  | RegOp.join sid chat_id => join_chat r sid chat_id

/-- Membership consistency, one direction: a session's current chat always
lists it as a member. -/
def RegInv (r : Registry) : Prop :=
  ∀ s c, get_session_chat r s = some c → s ∈ get_chat_members r c

/-! ## Constants (`backend/utils/constants.py`) -/

/-- Source `Constants.AVAILABLE_SEARCH_FIELDS` (a Python set; only membership is
used, so a list suffices). -/
def AVAILABLE_SEARCH_FIELDS : List String :=
  ["accessibilityOptions", "addressComponents", "adrFormatAddress",
   "businessStatus", "containingPlaces", "displayName", "formattedAddress",
   "googleMapsLinks*", "googleMapsUri", "iconBackgroundColor",
   "iconMaskBaseUri", "location", "photos", "plusCode", "primaryType",
   "primaryTypeDisplayName", "pureServiceAreaBusiness",
   "shortFormattedAddress", "subDestinations", "types", "utcOffsetMinutes",
   "viewport", "currentOpeningHours", "currentSecondaryOpeningHours",
   "internationalPhoneNumber", "nationalPhoneNumber", "priceLevel",
   "priceRange", "rating", "regularOpeningHours",
   "regularSecondaryOpeningHours", "userRatingCount", "websiteUri",
   "allowsDogs", "curbsidePickup", "delivery", "dineIn", "editorialSummary",
   "evChargeOptions", "fuelOptions", "goodForChildren", "goodForGroups",
   "goodForWatchingSports", "liveMusic", "menuForChildren",
   "parkingOptions", "paymentOptions", "outdoorSeating", "reservable",
   "restroom", "reviews", "servesBeer", "servesBreakfast", "servesBrunch",
   "servesCocktails", "servesCoffee", "servesDessert", "servesDinner",
   "servesLunch", "servesVegetarianFood", "servesWine", "takeout"]

/-- Source `Constants.TOOL_DESCRIPTIONS`: internal tool name to human-readable
label. -/
def TOOL_DESCRIPTIONS : List (String × String) :=
  [("search_google_maps", "Searching Google Maps"),
   ("describe_images", "Analyzing images from Google Maps"),
   ("extract_image_info", "Extracting information from Google Maps images"),
   ("fetch_chat_data", "Recollecting information from historical chat data"),
   ("describe_place", "Getting more information from Google Maps"),
   ("get_stored_places_for_chat", "Retrieving all the places we have talked about"),
   ("get_yelp_reviews", "Fetching Yelp reviews"),
   ("get_user_location", "Getting your location"),
   ("search_website", "Searching website content")]

/-! ## Tool dispatch (`AssistantManager.handle_assistant_function_call`) -/

/-- Decoded tool-call arguments, as produced by
`json.loads(tool_call.function.arguments)`. -/
def Args : Type := List (String × Json)

/-- Python `arguments.get(key, default)`. -/
def argGet (args : Args) (key : String) (default : Json) : Json :=
  match List.lookup key args with
  | some v => v
  | none => default

/-- The elements of a JSON array (the function-calling schema guarantees
the `fields` argument is an array). -/
def jsonElems : Json → List Json
  | Json.arr l => l
  | _ => []

/-- Python `field in Constants.AVAILABLE_SEARCH_FIELDS` for a decoded JSON
argument element (non-strings are never members of the set of strings). -/
def fieldOk : Json → Bool
  | Json.str s => AVAILABLE_SEARCH_FIELDS.contains s
  | _ => false

mutual

/-- Python `repr` of a JSON-decoded value, as interpolated by the f-string
`f"Invalid fields: \x7binvalid_fields\x7d"` (strings render in single
quotes; escaping inside strings is not modelled). -/
def pyRepr : Json → String
  | Json.null => "None"
  | Json.bool true => "True"
  | Json.bool false => "False"
  | Json.num n => toString n
  | Json.str s => "\x27" ++ s ++ "\x27"
  | Json.arr l => "[" ++ pyReprElems l ++ "]"
  | Json.obj l => "\x7b" ++ pyReprFields l ++ "\x7d"

def pyReprElems : List Json → String
  | [] => ""
  | [j] => pyRepr j
  | j :: rest => pyRepr j ++ ", " ++ pyReprElems rest

def pyReprFields : List (String × Json) → String
  | [] => ""
  | [(k, j)] => "\x27" ++ k ++ "\x27: " ++ pyRepr j
  | (k, j) :: rest => "\x27" ++ k ++ "\x27: " ++ pyRepr j ++ ", " ++ pyReprFields rest

end

/-- Python-list rendering of a list of decoded values, used in the
`"Invalid fields: [...]"` message. -/
def pyReprList (l : List Json) : String :=
  "[" ++ pyReprElems l ++ "]"

mutual

/-- Python `json.dumps` of a tool output (string escaping not modelled). -/
def jsonDump : Json → String
  | Json.null => "null"
  | Json.bool true => "true"
  | Json.bool false => "false"
  | Json.num n => toString n
  | Json.str s => "\"" ++ s ++ "\""
  | Json.arr l => "[" ++ jsonDumpElems l ++ "]"
  | Json.obj l => "\x7b" ++ jsonDumpFields l ++ "\x7d"

def jsonDumpElems : List Json → String
  | [] => ""
  | [j] => jsonDump j
  | j :: rest => jsonDump j ++ ", " ++ jsonDumpElems rest

def jsonDumpFields : List (String × Json) → String
  | [] => ""
  | [(k, j)] => "\"" ++ k ++ "\": " ++ jsonDump j
  | (k, j) :: rest => "\"" ++ k ++ "\": " ++ jsonDump j ++ ", " ++ jsonDumpFields rest

end

/-- A call to an external collaborator issued by one dispatcher branch,
with the argument values the source passes along. -/
inductive ToolCall where
  | searchGoogleMaps (query radius limit : Json) (chat_id : String)
  | describePlace (place_id : Json) (fields : List Json)
  | describeImages (place_id : Json)
  | extractImageInfo (image_index place_id query : Json)
  | fetchChatData (chat_id : String)
  | getStoredPlaces (chat_id : String)
  | yelpReviews (place_id : Json)
  | getUserLocation (chat_id : String)
  | searchWebsite (domain query : Json)

/-- The if/elif dispatch chain of
`AssistantManager.handle_assistant_function_call`, split into the pure
part: either a value returned without touching any collaborator
(`Sum.inl`), or the single collaborator call the branch makes
(`Sum.inr`). -/
def dispatchStep (function_name : String) (arguments : Args) (chat_id : String) :
    Sum Json ToolCall :=
  if function_name = "search_google_maps" then
    Sum.inr (ToolCall.searchGoogleMaps (argGet arguments "query" (Json.str ""))
      (argGet arguments "radius" (Json.num 5000))
      (argGet arguments "limit" (Json.num 5)) chat_id)
  else if function_name = "describe_place" then
    let place_id := argGet arguments "place_id" (Json.str "")
    let fields_val := jsonElems (argGet arguments "fields" (Json.arr []))
    if fields_val.all fieldOk then
      Sum.inr (ToolCall.describePlace place_id fields_val)
    else
      let invalid_fields := fields_val.filter (fun f => !fieldOk f)
      Sum.inl (Json.obj [("error",
        Json.str ("Invalid fields: " ++ pyReprList invalid_fields))])
  else if function_name = "describe_images" then
    Sum.inr (ToolCall.describeImages (argGet arguments "place_id" (Json.arr [])))
  else if function_name = "extract_image_info" then
    Sum.inr (ToolCall.extractImageInfo (argGet arguments "image_index" (Json.num 0))
      (argGet arguments "place_id" (Json.str ""))
      (argGet arguments "query" (Json.str "")))
  else if function_name = "fetch_chat_data" then
    Sum.inr (ToolCall.fetchChatData chat_id)
  else if function_name = "get_stored_places_for_chat" then
    Sum.inr (ToolCall.getStoredPlaces chat_id)
  else if function_name = "get_yelp_reviews" then
    Sum.inr (ToolCall.yelpReviews (argGet arguments "place_id" Json.null))
  else if function_name = "get_user_location" then
    Sum.inr (ToolCall.getUserLocation chat_id)
  else if function_name = "search_website" then
    Sum.inr (ToolCall.searchWebsite (argGet arguments "domain" (Json.str ""))
      (argGet arguments "query" (Json.str "")))
  else
    Sum.inl (Json.obj [("error",
      Json.str ("Function \x27" ++ function_name ++ "\x27 not recognized."))])

/-- The registered tool names (the `elif` chain's cases). -/
def registeredToolNames : List String :=
  ["search_google_maps", "describe_place", "describe_images",
   "extract_image_info", "fetch_chat_data", "get_stored_places_for_chat",
   "get_yelp_reviews", "get_user_location", "search_website"]

/-- Post-processing a collaborator result inside the branch:
`fetch_chat_data` returns `get_chat_data(chat_id) or \x7b\x7d`. -/
def postProcess (tc : ToolCall) (j : Json) : Json :=
  match tc with
  | ToolCall.fetchChatData _ => if pyTruthy j then j else Json.obj []
  | _ => j

/-- Source `AssistantManager.handle_assistant_function_call`: run the dispatch
chain; the whole body is wrapped in `try/except Exception`, so a
collaborator exception becomes
`\x7b"error": f"Error executing function: \x7bstr(e)\x7d"\x7d`.  The
collaborator oracle `collab` returns `Except.error m` for a raised
exception with message `m`. -/
def handle_assistant_function_call (collab : ToolCall → Except String Json)
    (function_name : String) (arguments : Args) (chat_id : String) : Json :=
  match dispatchStep function_name arguments chat_id with
  | Sum.inl j => j
  | Sum.inr tc =>
    match collab tc with
    | Except.ok j => postProcess tc j
    | Except.error e =>
      Json.obj [("error", Json.str ("Error executing function: " ++ e))]

/-! ## Document store boundary (`backend/services/mongo_manager.py`)

The chat collection is modelled at its contract boundary as a map from
chat id to record.  Only the fields this core reads or writes are kept
(`thread_id`, `messages`, `location`); `places` and `created_at` are
never examined by the modelled operations. -/

structure ChatRec where
  thread_id : Option String
  messages : List (String × String)
  location : Json

def ChatStore : Type := String → Option ChatRec

/-- Source `get_chat_data_field(chat_id, "thread_id")`: `None` default when the
chat or the field is missing. -/
def get_chat_thread_id (store : ChatStore) (chat_id : String) : Option String :=
  match store chat_id with
  | none => none
  | some rec => rec.thread_id

/-- Source `update_chat_data_field(chat_id, "thread_id", value)`: reads the chat
record and writes the field back; on a missing chat the Python code raises
(`chat_data[field] = value` on `None`). -/
def update_chat_thread_id (store : ChatStore) (chat_id t : String) :
    Except String ChatStore :=
  match store chat_id with
  | none => Except.error "\x27NoneType\x27 object does not support item assignment"
  | some rec =>
    Except.ok (fun c => if c = chat_id then some { rec with thread_id := some t }
      else store c)

/-- Source `add_chat_message(chat_id, message)`: appends to `messages`; on a
missing chat the Python code raises (`chat_data["messages"]` on `None`). -/
def add_chat_message (store : ChatStore) (chat_id : String)
    (message : String × String) : Except String ChatStore :=
  match store chat_id with
  | none => Except.error "\x27NoneType\x27 object is not subscriptable"
  | some rec =>
    Except.ok (fun c => if c = chat_id then
      some { rec with messages := rec.messages ++ [message] } else store c)

/-- Source `create_chat_data(location)`: inserts a fresh chat record with an empty
message log and no thread handle; the generated uuid is supplied by the
caller as `fresh_id`. -/
def create_chat_data (store : ChatStore) (fresh_id : String) (location : Json) :
    ChatStore × String :=
  (fun c => if c = fresh_id then
      some { thread_id := none, messages := [], location := location }
    else store c,
   fresh_id)

/-! ## Conversation orchestrator (`AssistantManager.chat_with_assistant`)

The OpenAI client is modelled as an oracle: each method returns
`Except String`, with `Except.error m` for a raised exception of message
`m`.  Successive `runs.retrieve` calls are modelled by the list
`retrieves`; exhausting the list means the polling loop would spin
forever, which surfaces as the `none` outcome. -/

/-- One message of `threads.messages.list`; `content` is the list of text
parts (`content[0].text.value` is its head). -/
structure ThreadMsg where
  role : String
  content : List String

/-- One pending tool call of a `requires_action` run status, with its
arguments already decoded (`json.loads` is part of the oracle boundary). -/
structure ToolCallReq where
  id : String
  name : String
  args : Args

/-- One `runs.retrieve` result: the status string and, when the status is
`"requires_action"`, the pending tool calls. -/
structure RunStatusResp where
  status : String
  toolCalls : List ToolCallReq

structure AIService where
  createThread : Except String String
  createMessage : String → String → Except String Unit
  createRun : String → Except String String
  retrieves : List (Except String RunStatusResp)
  submitToolOutputs : String → List (String × String) → Except String Unit
  listMessages : String → Except String (List ThreadMsg)

/-- Source `emit_tool_call` as the `tool_callback`: looks the function name up in
`Constants.TOOL_DESCRIPTIONS`, raising `KeyError` (whose `str` is the
quoted key) on an unknown name.  The broadcast payload itself is not
tracked. -/
def emit_tool_call_cb (name : String) : Except String Unit :=
  match List.lookup name TOOL_DESCRIPTIONS with
  | some _ => Except.ok ()
  | none => Except.error ("\x27" ++ name ++ "\x27")

/-- The `for tool_call in tool_calls` body: notify the callback, run the
dispatcher (which never raises), and collect
`(tool_call.id, json.dumps(output))` pairs in order. -/
def processToolCalls (collab : ToolCall → Except String Json)
    (cb : String → Except String Unit) (chat_id : String) :
    List ToolCallReq → Except String (List (String × String))
  | [] => Except.ok []
  | tc :: rest =>
    match cb tc.name with
    | Except.error e => Except.error e
    | Except.ok _ =>
      let output := handle_assistant_function_call collab tc.name tc.args chat_id
      match processToolCalls collab cb chat_id rest with
      | Except.error e => Except.error e
      | Except.ok outs => Except.ok ((tc.id, jsonDump output) :: outs)

/-- Outcome of the `while True` polling loop. -/
inductive PollOut where
  | completed
  | earlyReturn (s : String)
  | exn (e : String)
  | hang

/-- The terminal-failure reply the source returns on a `failed`, `expired`
or `cancelled` run status. -/
def failedStateReply (status : String) : String :=
  "Error: OpenAI assistant entered failed state (state " ++ status ++
    "), start a new chat"

/-- The `while True` polling loop of `chat_with_assistant`, consuming one
`runs.retrieve` result per iteration. -/
def pollLoop (svc : AIService) (collab : ToolCall → Except String Json)
    (cb : String → Except String Unit) (chat_id run_id : String) :
    List (Except String RunStatusResp) → PollOut
  | [] => PollOut.hang
  | r :: rest =>
    match r with
    | Except.error e => PollOut.exn e
    | Except.ok run_status =>
      if run_status.status = "completed" then PollOut.completed
      else if run_status.status = "requires_action" then
        match processToolCalls collab cb chat_id run_status.toolCalls with
        | Except.error e => PollOut.exn e
        | Except.ok tool_outputs =>
          match svc.submitToolOutputs run_id tool_outputs with
          | Except.error e => PollOut.exn e
          | Except.ok _ => pollLoop svc collab cb chat_id run_id rest
      else if ["failed", "expired", "cancelled"].contains run_status.status then
        PollOut.earlyReturn (failedStateReply run_status.status)
      else pollLoop svc collab cb chat_id run_id rest

/-- The body of the `try` block of `chat_with_assistant`: create the user
message, create the run, poll, and on completion pick the most recent
assistant-role message's first text part.  `some (Except.ok s)` is a
normal return of `s`, `some (Except.error m)` an exception raised inside
the block, `none` a never-terminating poll. -/
def tryBody (svc : AIService) (collab : ToolCall → Except String Json)
    (cb : String → Except String Unit) (chat_id thread_id user_input : String) :
    Option (Except String String) :=
  match svc.createMessage thread_id user_input with
  | Except.error e => some (Except.error e)
  | Except.ok _ =>
    match svc.createRun thread_id with
    | Except.error e => some (Except.error e)
    | Except.ok run_id =>
      match pollLoop svc collab cb chat_id run_id svc.retrieves with
      | PollOut.exn e => some (Except.error e)
      | PollOut.hang => none
      | PollOut.earlyReturn s => some (Except.ok s)
      | PollOut.completed =>
        match svc.listMessages thread_id with
        | Except.error e => some (Except.error e)
        | Except.ok messages =>
          match messages.find? (fun m => m.role = "assistant") with
          | none => some (Except.error "")
          | some assistant_message =>
            match assistant_message.content.head? with
            | none => some (Except.error "list index out of range")
            | some txt => some (Except.ok txt)

/-- The thread-handle setup of `chat_with_assistant`, executed BEFORE the
`try` block: read the `thread_id` field; when falsy, create a thread via
the AI service and persist it.  An exception here is not caught. -/
def threadSetup (svc : AIService) (store : ChatStore) (chat_id : String) :
    Except String (String × ChatStore) :=
  match truthyStr (get_chat_thread_id store chat_id) with
  | some t => Except.ok (t, store)
  | none =>
    match svc.createThread with
    | Except.error e => Except.error e
    | Except.ok t =>
      match update_chat_thread_id store chat_id t with
      | Except.error e => Except.error e
      | Except.ok store' => Except.ok (t, store')

/-- Source `AssistantManager.chat_with_assistant`: thread setup (uncaught), then
the `try` block whose exceptions are caught and turned into the literal
reply `"Error: " ++ message`.  `some (Except.ok s, store)` is a normal
string return, `some (Except.error m, store)` an exception propagated to
the caller, `none` a never-terminating poll. -/
def chat_with_assistant (svc : AIService) (collab : ToolCall → Except String Json)
    (cb : String → Except String Unit) (store : ChatStore)
    (user_input chat_id : String) :
    Option (Except String String × ChatStore) :=
  match threadSetup svc store chat_id with
  | Except.error e => some (Except.error e, store)
  | Except.ok (thread_id, store') =>
    match tryBody svc collab cb chat_id thread_id user_input with
    | none => none
    | some (Except.ok response) => some (Except.ok response, store')
    | some (Except.error e) => some (Except.ok ("Error: " ++ e), store')

/-! ## Socket handlers (`backend/routes/socket_routes.py`) -/

/-- Source `validate_token`: compare against the configured secret. -/
def validate_token (token api_token : String) : Bool :=
  token = api_token

/-- Source `handle_connect`: reject (return `False`, disconnect) when the supplied
token is absent, empty (`not token`) or fails validation; otherwise
register the session and accept.  Returns the accept flag and the registry
afterwards. -/
def handle_connect (api_token : String) (sid : String) (token : Option String)
    (r : Registry) : Bool × Registry :=
  match token with
  | none => (false, r)
  | some t =>
    if t = "" then (false, r)
    else if !validate_token t api_token then (false, r)
    else (true, add_session r sid)

/-- Source `handle_disconnect`. -/
def handle_disconnect (sid : String) (r : Registry) : Registry :=
  remove_session r sid

/-- Events emitted back over the socket (tool-call notifications are not
tracked; see `emit_tool_call_cb`). -/
inductive Ev where
  | message (chat_id content sid : String)
  | errorEv (chat_id : Option String) (error sid : String)

/-- Source `emit_error`: scoped to the triggering connection, with that
connection's current chat id as context. -/
def emit_error (r : Registry) (sid error_message : String) : Ev :=
  Ev.errorEv (get_session_chat r sid) error_message sid

/-- The decoded `send_message` payload. -/
structure SendMsgData where
  chat_id : Option String
  content : Option String
  location : Option Json

structure BackendSt where
  reg : Registry
  chats : ChatStore

/-- Source `handle_send_message`: validate `content`, create a chat when
`chat_id` is falsy (using `location or \x7b\x7d`), join the chat, append
the user message, run the assistant turn, append the assistant reply, and
emit it to every chat member.  Exceptions anywhere in the body are caught
and surfaced as an `error` event via `emit_error`.  `none` models a
never-terminating assistant poll. -/
def handle_send_message (svc : AIService) (collab : ToolCall → Except String Json)
    (fresh_id : String) (sid : String) (data : SendMsgData) (st : BackendSt) :
    Option (BackendSt × List Ev) :=
  match truthyStr data.content with
  | none =>
    some (st, [emit_error st.reg sid "Message content is required"])
  | some content =>
    let created :=
      match truthyStr data.chat_id with
      | some c => (st.chats, c)
      | none => create_chat_data st.chats fresh_id ((data.location).getD (Json.obj []))
    let chats0 := created.1
    let chat_id := created.2
    let reg' := join_chat st.reg sid chat_id
    match add_chat_message chats0 chat_id ("user", content) with
    | Except.error e => some ({ reg := reg', chats := chats0 }, [emit_error reg' sid e])
    | Except.ok chats1 =>
      match chat_with_assistant svc collab emit_tool_call_cb chats1 content chat_id with
      | none => none
      | some (Except.error e, chats2) =>
        some ({ reg := reg', chats := chats2 }, [emit_error reg' sid e])
      | some (Except.ok response, chats2) =>
        match add_chat_message chats2 chat_id ("assistant", response) with
        | Except.error e =>
          some ({ reg := reg', chats := chats2 }, [emit_error reg' sid e])
        | Except.ok chats3 =>
          some ({ reg := reg', chats := chats3 },
            (get_chat_members reg' chat_id).map
              (fun m => Ev.message chat_id response m))

/-! ## Image batch analyzer (`backend/services/image_processor.py` with
`get_images_for_place` from `backend/services/google_maps.py`)

`_encode_and_describe` (download, re-encode, Bedrock call) is the external
worker, modelled as an oracle from the submitted `(photo_url, idx,
photo_name)` tuple to `Except String String`.  The thread pool's
`as_completed` order only determines the insertion order of the `results`
dict keyed by distinct indices, so iterating the submissions in list order
is observationally the same merge. -/

/-- One element of a place's `photos` list; only the keys the analyzer
touches are kept. -/
structure Photo where
  name : Option String
  description : Option String
  googleMapsUri : Option String

structure PlaceRec where
  photos : Option (List Photo)

def PlaceStore : Type := String → Option PlaceRec

/-- The photos endpoint and API key of `Config`, used to build photo
URLs. -/
structure GmCfg where
  photosEndpoint : String
  apiKey : String

def photoUrl (cfg : GmCfg) (photo_name : String) : String :=
  cfg.photosEndpoint ++ "/" ++ photo_name ++
    "/media?maxHeightPx=400&maxWidthPx=400&key=" ++ cfg.apiKey

/-- The `for idx, photo in enumerate(photos)` loop of
`get_images_for_place`: keep photos with a falsy `description` and a
truthy `name`, paired with their index in the full photo list. -/
def photoDataAux (cfg : GmCfg) : Nat → List Photo → List (String × Nat × String)
  | _, [] => []
  | idx, photo :: rest =>
    let tail := photoDataAux cfg (idx + 1) rest
    match truthyStr photo.description with
    | some _ => tail
    | none =>
      match truthyStr photo.name with
      | some photo_name => (photoUrl cfg photo_name, idx, photo_name) :: tail
      | none => tail

def photoData (cfg : GmCfg) (photos : List Photo) : List (String × Nat × String) :=
  photoDataAux cfg 0 photos

/-- Source `get_images_for_place`: error dict when the place is missing, else the
undescribed-photo tuples (a missing `photos` key yields the empty
batch). -/
def get_images_for_place (cfg : GmCfg) (store : PlaceStore) (place_id : String) :
    Except String (List (String × Nat × String)) :=
  match store place_id with
  | none => Except.error ("No place data found for place_id: " ++ place_id)
  | some place_data => Except.ok (photoData cfg (place_data.photos.getD []))

/-- The value merged back for one index:
`result.get("description", result.get("error"))` — the description on
success, the exception message on failure. -/
def workVal : Except String String → String
  | Except.ok d => d
  | Except.error e => e

/-- Python `photos[idx]["description"] = v` on a list-of-dicts. -/
def setPhotoDesc : List Photo → Nat → String → List Photo
  | [], _, _ => []
  | photo :: rest, 0, v => { photo with description := some v } :: rest
  | photo :: rest, n + 1, v => photo :: setPhotoDesc rest n v

/-- The `for idx, result in results.items()` merge loop, guarded by
`idx < len(photos)`. -/
def mergeResults (photos : List Photo) :
    List (Nat × Except String String) → List Photo
  | [] => photos
  | p :: rest =>
    mergeResults
      (if p.1 < photos.length then setPhotoDesc photos p.1 (workVal p.2) else photos)
      rest

/-- The fan-out: one submitted worker per input tuple, keyed by its
index. -/
def describeResults (worker : String × Nat × String → Except String String)
    (photo_data : List (String × Nat × String)) :
    List (Nat × Except String String) :=
  photo_data.map (fun t => (t.2.1, worker t))

/-- One entry of the value `describe_images` returns to the tool layer. -/
structure ImageOut where
  googleMapsUri : Option String
  description : Option String
  index : Nat

/-- The final `[\x7b"googleMapsUri": ..., "description": ..., "index":
idx\x7d for idx, photo in enumerate(photos)]`. -/
def formatPhotos : Nat → List Photo → List ImageOut
  | _, [] => []
  | idx, photo :: rest =>
    { googleMapsUri := photo.googleMapsUri, description := photo.description,
      index := idx } :: formatPhotos (idx + 1) rest

/-- Result of `describe_images`: the error dict propagated from
`get_images_for_place`, or a list (empty when the place record or its
`photos` key has vanished before the merge). -/
inductive DIResult where
  | err (e : String)
  | out (l : List ImageOut)

/-- Source `describe_images`: fetch the undescribed photos, fan out one worker per
photo, merge every outcome back into the place's full photo list by index,
persist it, and return the full formatted photo list. -/
def describe_images (cfg : GmCfg) (store : PlaceStore)
    (worker : String × Nat × String → Except String String) (place_id : String) :
    DIResult × PlaceStore :=
  match get_images_for_place cfg store place_id with
  | Except.error e => (DIResult.err e, store)
  | Except.ok photo_data =>
    let results := describeResults worker photo_data
    match store place_id with
    | none => (DIResult.out [], store)
    | some place_data =>
      match place_data.photos with
      | none => (DIResult.out [], store)
      | some photos =>
        let photos' := mergeResults photos results
        let store' : PlaceStore := fun p =>
          if p = place_id then some { place_data with photos := some photos' }
          else store p
        (DIResult.out (formatPhotos 0 photos'), store')

/-! ## Concrete fixtures used by counterexamples and witnesses -/

/-- add "s1"; join "s1" "c1"; join "s1" "c2". -/
def regTwoJoins : Registry :=
  join_chat (join_chat (add_session emptyRegistry "s1") "s1" "c1") "s1" "c2"

/-- The state above followed by remove "s1". -/
def regTwoJoinsRemoved : Registry :=
  remove_session regTwoJoins "s1"

/-- add "s1"; join "s1" "c1". -/
def regOneJoin : Registry :=
  join_chat (add_session emptyRegistry "s1") "s1" "c1"

/-- A collaborator oracle that always succeeds with `null`. -/
def collabNull : ToolCall → Except String Json := fun _ => Except.ok Json.null

/-- An AI service whose thread creation raises "boom". -/
def svcBoomThread : AIService :=
  { createThread := Except.error "boom",
    createMessage := fun _ _ => Except.ok (),
    createRun := fun _ => Except.ok "run1",
    retrieves := [],
    submitToolOutputs := fun _ _ => Except.ok (),
    listMessages := fun _ => Except.ok [] }

/-- An AI service whose message creation raises "rate limited". -/
def svcMsgBoom : AIService :=
  { createThread := Except.ok "t1",
    createMessage := fun _ _ => Except.error "rate limited",
    createRun := fun _ => Except.ok "run1",
    retrieves := [],
    submitToolOutputs := fun _ _ => Except.ok (),
    listMessages := fun _ => Except.ok [] }

/-- An AI service whose single run immediately reports status "failed". -/
def svcFailedRun : AIService :=
  { createThread := Except.ok "t1",
    createMessage := fun _ _ => Except.ok (),
    createRun := fun _ => Except.ok "run1",
    retrieves := [Except.ok { status := "failed", toolCalls := [] }],
    submitToolOutputs := fun _ _ => Except.ok (),
    listMessages := fun _ => Except.ok [] }

/-- A chat store holding one chat "chat1" without a thread handle. -/
def storeNoThread : ChatStore := fun c =>
  if c = "chat1" then some { thread_id := none, messages := [], location := Json.null }
  else none

/-- A chat store holding one chat "chat1" with thread handle "t1". -/
def storeWithThread : ChatStore := fun c =>
  if c = "chat1" then
    some { thread_id := some "t1", messages := [], location := Json.null }
  else none


/-- A config, a two-photo place (both undescribed), and a worker that
fails on the second photo's download. -/
def cfgW : GmCfg := { photosEndpoint := "EP", apiKey := "K" }

def photosW : List Photo :=
  [{ name := some "n0", description := none, googleMapsUri := some "u0" },
   { name := some "n1", description := none, googleMapsUri := some "u1" }]

def placeW : PlaceRec := { photos := some photosW }

def storeW : PlaceStore := fun p => if p = "p1" then some placeW else none

def workerW : String × Nat × String → Except String String :=
  fun t => if t.2.1 = 0 then Except.ok "a menu" else Except.error "download failed"

/-! ## Registry lemmas -/

theorem mem_setInsert (sid : String) (m : List String) :
    sid ∈ (if sid ∈ m then m else m ++ [sid]) := by
  by_cases h : sid ∈ m <;> simp [h]

theorem subset_setInsert (x sid : String) (m : List String) (h : x ∈ m) :
    x ∈ (if sid ∈ m then m else m ++ [sid]) := by
  by_cases hs : sid ∈ m <;> simp [hs, h]

theorem regInv_add (r : Registry) (sid : String) (hr : RegInv r) :
    RegInv (add_session r sid) := by
  intro s c h
  simp only [get_session_chat, add_session] at h
  by_cases hs : s = sid
  · subst hs; rw [if_pos rfl] at h; simp at h
  · rw [if_neg hs] at h
    have hmem := hr s c h
    simpa [get_chat_members, add_session] using hmem

theorem regInv_join (r : Registry) (sid cid : String) (hr : RegInv r) :
    RegInv (join_chat r sid cid) := by
  intro s c h
  simp only [get_session_chat, join_chat] at h
  by_cases hs : s = sid
  · subst hs
    rw [if_pos rfl] at h
    simp only [Option.bind_some, id] at h
    have hc : c = cid := by simpa using h.symm
    subst hc
    simp only [get_chat_members, join_chat, if_pos rfl, Option.getD_some]
    exact mem_setInsert _ _
  · rw [if_neg hs] at h
    have hmem := hr s c h
    simp only [get_chat_members, join_chat]
    by_cases hc : c = cid
    · subst hc
      rw [if_pos rfl]
      simp only [Option.getD_some]
      exact subset_setInsert s sid _ hmem
    · rw [if_neg hc]
      exact hmem

theorem remove_session_not_registered (r : Registry) (sid : String)
    (h : r.active sid = none) : remove_session r sid = r := by
  simp [remove_session, h]

theorem remove_session_no_chat (r : Registry) (sid : String)
    (h : r.active sid = some none) :
    remove_session r sid =
      { r with active := fun x => if x = sid then none else r.active x } := by
  simp [remove_session, h]

theorem remove_session_empty_cid (r : Registry) (sid : String)
    (h : r.active sid = some (some "")) :
    remove_session r sid =
      { r with active := fun x => if x = sid then none else r.active x } := by
  simp [remove_session, h]

theorem remove_session_chat_missing (r : Registry) (sid cid : String)
    (hcid : cid ≠ "") (h : r.active sid = some (some cid))
    (hch : r.chats cid = none) :
    remove_session r sid =
      { r with active := fun x => if x = sid then none else r.active x } := by
  simp [remove_session, h, hch, hcid]

theorem remove_session_drop (r : Registry) (sid cid : String)
    (members : List String) (hcid : cid ≠ "")
    (h : r.active sid = some (some cid)) (hch : r.chats cid = some members)
    (hfe : members.filter (fun x => x ≠ sid) = []) :
    remove_session r sid =
      { active := fun x => if x = sid then none else r.active x,
        chats := fun x => if x = cid then none else r.chats x } := by
  simp only [remove_session, h, hch, if_neg hcid]
  rw [if_pos hfe]

theorem remove_session_keep (r : Registry) (sid cid : String)
    (members : List String) (hcid : cid ≠ "")
    (h : r.active sid = some (some cid)) (hch : r.chats cid = some members)
    (hfe : members.filter (fun x => x ≠ sid) ≠ []) :
    remove_session r sid =
      { active := fun x => if x = sid then none else r.active x,
        chats := fun x =>
          if x = cid then some (members.filter (fun x => x ≠ sid))
          else r.chats x } := by
  simp only [remove_session, h, hch, if_neg hcid]
  rw [if_neg hfe]

theorem regInv_remove (r : Registry) (sid : String) (hr : RegInv r) :
    RegInv (remove_session r sid) := by
  intro s c h
  cases hact : r.active sid with
  | none =>
    rw [remove_session_not_registered r sid hact] at h ⊢
    exact hr s c h
  | some ochat =>
    by_cases hs : s = sid
    · subst hs
      exfalso
      cases ochat with
      | none =>
        rw [remove_session_no_chat r s hact] at h
        simp [get_session_chat] at h
      | some cid =>
        by_cases hcid : cid = ""
        · subst hcid
          rw [remove_session_empty_cid r s hact] at h
          simp [get_session_chat] at h
        · cases hch : r.chats cid with
          | none =>
            rw [remove_session_chat_missing r s cid hcid hact hch] at h
            simp [get_session_chat] at h
          | some members =>
            by_cases hfe : members.filter (fun x => x ≠ s) = []
            · rw [remove_session_drop r s cid members hcid hact hch hfe] at h
              simp [get_session_chat] at h
            · rw [remove_session_keep r s cid members hcid hact hch hfe] at h
              simp [get_session_chat] at h
    · have hred : get_session_chat (remove_session r sid) s = get_session_chat r s := by
        cases ochat with
        | none =>
          rw [remove_session_no_chat r sid hact]
          simp [get_session_chat, if_neg hs]
        | some cid =>
          by_cases hcid : cid = ""
          · subst hcid
            rw [remove_session_empty_cid r sid hact]
            simp [get_session_chat, if_neg hs]
          · cases hch : r.chats cid with
            | none =>
              rw [remove_session_chat_missing r sid cid hcid hact hch]
              simp [get_session_chat, if_neg hs]
            | some members =>
              by_cases hfe : members.filter (fun x => x ≠ sid) = []
              · rw [remove_session_drop r sid cid members hcid hact hch hfe]
                simp [get_session_chat, if_neg hs]
              · rw [remove_session_keep r sid cid members hcid hact hch hfe]
                simp [get_session_chat, if_neg hs]
      rw [hred] at h
      have hmem := hr s c h
      cases ochat with
      | none =>
        rw [remove_session_no_chat r sid hact]
        simpa [get_chat_members] using hmem
      | some cid =>
        by_cases hcid : cid = ""
        · subst hcid
          rw [remove_session_empty_cid r sid hact]
          simpa [get_chat_members] using hmem
        · cases hch : r.chats cid with
          | none =>
            rw [remove_session_chat_missing r sid cid hcid hact hch]
            simpa [get_chat_members] using hmem
          | some members =>
            by_cases hfe : members.filter (fun x => x ≠ sid) = []
            · rw [remove_session_drop r sid cid members hcid hact hch hfe]
              by_cases hc : c = cid
              · subst hc
                exfalso
                have hsf : s ∈ members.filter (fun x => x ≠ sid) := by
                  rw [List.mem_filter]
                  refine ⟨?_, by simp [hs]⟩
                  have : get_chat_members r c = members := by
                    simp [get_chat_members, hch]
                  rwa [this] at hmem
                rw [hfe] at hsf
                simp at hsf
              · simpa [get_chat_members, if_neg hc] using hmem
            · rw [remove_session_keep r sid cid members hcid hact hch hfe]
              by_cases hc : c = cid
              · subst hc
                have hmm : s ∈ members := by
                  simpa [get_chat_members, hch] using hmem
                simp [get_chat_members, List.mem_filter, hs, hmm]
              · simpa [get_chat_members, if_neg hc] using hmem

/-- C10: one direction of membership consistency: whenever
`get_session_chat` returns a chat id for a session, that session is in the
chat's member set; this holds for the empty registry and is preserved by
`add_session`, `remove_session` and `join_chat`. -/
theorem c10_registry_invariant :
    RegInv emptyRegistry ∧
      ∀ (r : Registry) (op : RegOp), RegInv r → RegInv (applyOp r op) := by
  constructor
  · intro s c h
    simp [get_session_chat, emptyRegistry] at h
  · intro r op hr
    cases op with
    | add sid => exact regInv_add r sid hr
    | remove sid => exact regInv_remove r sid hr
    | join sid cid => exact regInv_join r sid cid hr

/-- C2 (counterexample): after `join_chat` to "c1" and then to "c2", the
session is NOT removed from "c1"'s member set — the source leaves it
there — refuting the claim that it appears in the member set of only the
second chat. -/
theorem c2_counterexample :
    "s1" ∈ get_chat_members regTwoJoins "c1" ∧
      get_session_chat regTwoJoins "s1" = some "c2" := by
  decide

/-- C2 (amended): after two successive `join_chat` calls with different
chat ids, the session's current chat is the second chat and it is in the
second chat's member set, but it also REMAINS in the first chat's member
set — `join_chat` does not remove it from the previous chat. -/
theorem c2_amended (r : Registry) (sid c1 c2 : String) (h : c1 ≠ c2) :
    get_session_chat (join_chat (join_chat r sid c1) sid c2) sid = some c2 ∧
      sid ∈ get_chat_members (join_chat (join_chat r sid c1) sid c2) c2 ∧
      sid ∈ get_chat_members (join_chat (join_chat r sid c1) sid c2) c1 := by
  refine ⟨?_, ?_, ?_⟩
  · simp [get_session_chat, join_chat]
  · simp only [get_chat_members, join_chat, if_pos rfl, Option.getD_some]
    exact mem_setInsert _ _
  · simp only [get_chat_members, join_chat, if_neg h, if_pos rfl,
      Option.getD_some]
    exact mem_setInsert _ _

/-- C2 (amended) at a concrete input. -/
theorem c2_amended_witness :
    get_session_chat (join_chat (join_chat emptyRegistry "s1" "c1") "s1" "c2") "s1"
        = some "c2" ∧
      "s1" ∈ get_chat_members
        (join_chat (join_chat emptyRegistry "s1" "c1") "s1" "c2") "c2" ∧
      "s1" ∈ get_chat_members
        (join_chat (join_chat emptyRegistry "s1" "c1") "s1" "c2") "c1" :=
  c2_amended emptyRegistry "s1" "c1" "c2" (by decide)

/-- C6 (counterexample): a session that joined "c1" and then "c2" and is
then removed still appears in "c1"'s member set, refuting the claim that
after `remove_session` the connection id appears in no chat's member
set. -/
theorem c6_counterexample :
    "s1" ∈ get_chat_members regTwoJoinsRemoved "c1" ∧
      get_session_chat regTwoJoinsRemoved "s1" = none := by
  decide

/-- C6 (amended): after `remove_session`, `get_session_chat` returns none
and the session is removed from its CURRENT chat's member set, whose
registry entry is dropped exactly when the set became empty; the session
may however remain in member sets of chats it joined earlier. -/
theorem c6_amended (r : Registry) (sid c : String) (members : List String)
    (hc : get_session_chat r sid = some c) (hcid : c ≠ "")
    (hch : r.chats c = some members) :
    get_session_chat (remove_session r sid) sid = none ∧
      sid ∉ get_chat_members (remove_session r sid) c ∧
      (members.filter (fun x => x ≠ sid) = [] →
        (remove_session r sid).chats c = none) ∧
      (members.filter (fun x => x ≠ sid) ≠ [] →
        (remove_session r sid).chats c
          = some (members.filter (fun x => x ≠ sid))) := by
  have hact : r.active sid = some (some c) := by
    unfold get_session_chat at hc
    cases h : r.active sid with
    | none => rw [h] at hc; simp at hc
    | some o => rw [h] at hc; simp at hc; rw [hc]
  by_cases hfe : members.filter (fun x => x ≠ sid) = []
  · rw [remove_session_drop r sid c members hcid hact hch hfe]
    refine ⟨by simp [get_session_chat], ?_, fun _ => by simp, fun hne => absurd hfe hne⟩
    simp [get_chat_members]
  · rw [remove_session_keep r sid c members hcid hact hch hfe]
    refine ⟨by simp [get_session_chat], ?_, fun heq => absurd heq hfe, fun _ => by simp⟩
    simp [get_chat_members, List.mem_filter]

/-- C6 (amended) at a concrete input. -/
theorem c6_amended_witness :
    get_session_chat (remove_session regOneJoin "s1") "s1" = none ∧
      "s1" ∉ get_chat_members (remove_session regOneJoin "s1") "c1" ∧
      (["s1"].filter (fun x => x ≠ "s1") = [] →
        (remove_session regOneJoin "s1").chats "c1" = none) ∧
      (["s1"].filter (fun x => x ≠ "s1") ≠ [] →
        (remove_session regOneJoin "s1").chats "c1"
          = some (["s1"].filter (fun x => x ≠ "s1"))) :=
  c6_amended regOneJoin "s1" "c1" ["s1"] (by decide) (by decide) (by decide)

/-- C8 (counterexample): `add_session` on an already-registered session
that has joined a chat RESETS its chat association to none, refuting the
claim that a repeated `register` leaves the connection's chat association
unchanged. -/
theorem c8_counterexample :
    get_session_chat regOneJoin "s1" = some "c1" ∧
      get_session_chat (add_session regOneJoin "s1") "s1" = none := by
  decide

/-- C8 (amended): `add_session` unconditionally sets the session's chat
association to none and never touches any member set; consequently
registering twice in a row equals registering once, but it is NOT a no-op
for an already-registered connection that had a chat association. -/
theorem c8_amended (r : Registry) (sid : String) :
    add_session (add_session r sid) sid = add_session r sid ∧
      (add_session r sid).chats = r.chats ∧
      get_session_chat (add_session r sid) sid = none := by
  refine ⟨?_, rfl, by simp [get_session_chat, add_session]⟩
  simp only [add_session]
  congr 1
  funext x
  by_cases hx : x = sid <;> simp [hx]

/-- C9: a connection attempt whose token is absent or differs from the
configured secret is rejected (`False` returned, no registration), leaving
the registry without an entry for that session id. -/
theorem c9_reject_invalid_token (api_token sid : String) (token : Option String)
    (r : Registry)
    (habs : token = none ∨ ∀ t, token = some t → t ≠ api_token)
    (hfresh : r.active sid = none) :
    handle_connect api_token sid token r = (false, r) ∧
      ((handle_connect api_token sid token r).2).active sid = none := by
  rcases habs with h | h
  · subst h
    exact ⟨rfl, hfresh⟩
  · cases token with
    | none => exact ⟨rfl, hfresh⟩
    | some t =>
      have ht := h t rfl
      by_cases he : t = ""
      · subst he
        simp [handle_connect, hfresh]
      · simp [handle_connect, he, validate_token, ht, hfresh]

/-- C9 at the spec's concrete scenario: token "abc" against configured
secret "xyz". -/
theorem c9_reject_invalid_token_witness :
    handle_connect "xyz" "s1" (some "abc") emptyRegistry = (false, emptyRegistry) ∧
      ((handle_connect "xyz" "s1" (some "abc") emptyRegistry).2).active "s1"
        = none :=
  c9_reject_invalid_token "xyz" "s1" (some "abc") emptyRegistry
    (Or.inr (fun t ht => by cases ht; decide)) rfl

/-- C10 at a concrete input: the preserved invariant applied to the join
operation on the empty registry. -/
theorem c10_registry_invariant_witness :
    "s1" ∈ get_chat_members (applyOp emptyRegistry (RegOp.join "s1" "c1")) "c1" :=
  c10_registry_invariant.2 emptyRegistry (RegOp.join "s1" "c1")
    (fun s c h => by simp [get_session_chat, emptyRegistry] at h)
    "s1" "c1" (by decide)

/-- C5: a `describe_place` invocation whose `fields` list contains any
entry outside `AVAILABLE_SEARCH_FIELDS` short-circuits in the dispatch
chain with `\x7b"error": "Invalid fields: [...]"\x7d` listing exactly the
invalid entries, and no collaborator call is issued (the dispatch step is
`Sum.inl`), so the result is the same for every collaborator. -/
theorem c5_field_validation (collab : ToolCall → Except String Json)
    (arguments : Args) (chat_id : String) (fields : List Json)
    (hf : argGet arguments "fields" (Json.arr []) = Json.arr fields)
    (hbad : fields.all fieldOk = false) :
    dispatchStep "describe_place" arguments chat_id
      = Sum.inl (Json.obj [("error", Json.str ("Invalid fields: "
          ++ pyReprList (fields.filter (fun f => !fieldOk f))))]) ∧
    handle_assistant_function_call collab "describe_place" arguments chat_id
      = Json.obj [("error", Json.str ("Invalid fields: "
          ++ pyReprList (fields.filter (fun f => !fieldOk f))))] := by
  have hstep : dispatchStep "describe_place" arguments chat_id
      = Sum.inl (Json.obj [("error", Json.str ("Invalid fields: "
          ++ pyReprList (fields.filter (fun f => !fieldOk f))))]) := by
    simp [dispatchStep, hf, jsonElems, hbad]
  refine ⟨hstep, ?_⟩
  unfold handle_assistant_function_call
  rw [hstep]

/-- C5 at the spec's concrete scenario: fields `["takeout",
"bogus_field"]`. -/
theorem c5_field_validation_witness :
    dispatchStep "describe_place"
        [("place_id", Json.str "p1"),
         ("fields", Json.arr [Json.str "takeout", Json.str "bogus_field"])] "c1"
      = Sum.inl (Json.obj [("error",
          Json.str "Invalid fields: [\x27bogus_field\x27]")]) ∧
    handle_assistant_function_call (fun _ => Except.ok Json.null) "describe_place"
        [("place_id", Json.str "p1"),
         ("fields", Json.arr [Json.str "takeout", Json.str "bogus_field"])] "c1"
      = Json.obj [("error", Json.str "Invalid fields: [\x27bogus_field\x27]")] := by
  have h := c5_field_validation (fun _ => Except.ok Json.null)
    [("place_id", Json.str "p1"),
     ("fields", Json.arr [Json.str "takeout", Json.str "bogus_field"])] "c1"
    [Json.str "takeout", Json.str "bogus_field"] rfl (by decide)
  exact ⟨h.1, h.2⟩

/-- C7: an unknown tool name falls off the dispatch chain into the
structured value `\x7b"error": "Function ... not recognized."\x7d` (the
dispatcher is a total function, so no exception is possible), and when a
branch does call a collaborator that raises, the `except` clause converts
it to `\x7b"error": "Error executing function: <message>"\x7d` instead of
propagating it. -/
theorem c7_dispatch_errors (collab : ToolCall → Except String Json)
    (function_name : String) (arguments : Args) (chat_id : String) :
    (function_name ∉ registeredToolNames →
      handle_assistant_function_call collab function_name arguments chat_id
        = Json.obj [("error", Json.str
            ("Function \x27" ++ function_name ++ "\x27 not recognized."))]) ∧
    (∀ tc e, dispatchStep function_name arguments chat_id = Sum.inr tc →
      collab tc = Except.error e →
      handle_assistant_function_call collab function_name arguments chat_id
        = Json.obj [("error", Json.str ("Error executing function: " ++ e))]) := by
  constructor
  · intro hn
    simp only [registeredToolNames, List.mem_cons, List.not_mem_nil, or_false,
      not_or] at hn
    obtain ⟨h1, h2, h3, h4, h5, h6, h7, h8, h9⟩ := hn
    simp [handle_assistant_function_call, dispatchStep, h1, h2, h3, h4, h5,
      h6, h7, h8, h9]
  · intro tc e hstep hc
    unfold handle_assistant_function_call
    rw [hstep]
    simp [hc]

/-- C7 at concrete inputs: the unknown name "frobnicate", and a
`search_website` call whose collaborator raises "boom". -/
theorem c7_dispatch_errors_witness :
    handle_assistant_function_call (fun _ => Except.ok Json.null)
        "frobnicate" [] "c1"
      = Json.obj [("error",
          Json.str "Function \x27frobnicate\x27 not recognized.")] ∧
    handle_assistant_function_call (fun _ => Except.error "boom")
        "search_website" [] "c1"
      = Json.obj [("error", Json.str "Error executing function: boom")] :=
  ⟨(c7_dispatch_errors (fun _ => Except.ok Json.null) "frobnicate" [] "c1").1
      (by decide),
   (c7_dispatch_errors (fun _ => Except.error "boom") "search_website" [] "c1").2
      (ToolCall.searchWebsite (Json.str "") (Json.str "")) "boom" rfl rfl⟩

/-! ## Orchestrator lemmas -/

theorem truthyStr_some (s : String) (h : s ≠ "") : truthyStr (some s) = some s := by
  simp [truthyStr, h]

theorem add_chat_message_ok (store : ChatStore) (chat_id : String) (rec : ChatRec)
    (m : String × String) (h : store chat_id = some rec) :
    add_chat_message store chat_id m
      = Except.ok (fun c => if c = chat_id then
          some { rec with messages := rec.messages ++ [m] } else store c) := by
  simp [add_chat_message, h]

theorem threadSetup_existing (svc : AIService) (store : ChatStore)
    (chat_id : String) (rec : ChatRec) (t : String)
    (hrec : store chat_id = some rec) (ht : rec.thread_id = some t)
    (htne : t ≠ "") :
    threadSetup svc store chat_id = Except.ok (t, store) := by
  simp [threadSetup, get_chat_thread_id, hrec, ht, truthyStr, htne]

/-- Poll responses whose status is none of the five handled strings make
the loop recurse without other effect. -/
theorem pollLoop_skip (svc : AIService) (collab : ToolCall → Except String Json)
    (cb : String → Except String Unit) (chat_id run_id : String)
    (pre rest : List (Except String RunStatusResp))
    (hpre : ∀ r ∈ pre, ∃ st, r = Except.ok st ∧ st.status ≠ "completed" ∧
      st.status ≠ "requires_action" ∧
      ¬ (["failed", "expired", "cancelled"].contains st.status = true)) :
    pollLoop svc collab cb chat_id run_id (pre ++ rest)
      = pollLoop svc collab cb chat_id run_id rest := by
  induction pre with
  | nil => rfl
  | cons r pre ih =>
    obtain ⟨st, hr, h1, h2, h3⟩ := hpre r (List.mem_cons_self r pre)
    subst hr
    simp only [List.cons_append, pollLoop]
    rw [if_neg h1, if_neg h2, if_neg h3]
    exact ih (fun r hr => hpre r (List.mem_cons_of_mem _ hr))

/-- A run whose final polled status is `failed`/`expired`/`cancelled`
makes the `try` body return the literal terminal-state reply. -/
theorem tryBody_failed (svc : AIService) (collab : ToolCall → Except String Json)
    (cb : String → Except String Unit) (chat_id t user_input run_id : String)
    (pre : List (Except String RunStatusResp)) (stat : RunStatusResp)
    (hmsg : svc.createMessage t user_input = Except.ok ())
    (hrun : svc.createRun t = Except.ok run_id)
    (hretr : svc.retrieves = pre ++ [Except.ok stat])
    (hpre : ∀ r ∈ pre, ∃ st, r = Except.ok st ∧ st.status ≠ "completed" ∧
      st.status ≠ "requires_action" ∧
      ¬ (["failed", "expired", "cancelled"].contains st.status = true))
    (hterm : ["failed", "expired", "cancelled"].contains stat.status = true) :
    tryBody svc collab cb chat_id t user_input
      = some (Except.ok (failedStateReply stat.status)) := by
  have hmem : stat.status ∈ ["failed", "expired", "cancelled"] := by
    simpa using hterm
  have h1 : stat.status ≠ "completed" := by
    intro h; rw [h] at hmem; simp at hmem
  have h2 : stat.status ≠ "requires_action" := by
    intro h; rw [h] at hmem; simp at hmem
  have hlast : pollLoop svc collab cb chat_id run_id [Except.ok stat]
      = PollOut.earlyReturn (failedStateReply stat.status) := by
    simp only [pollLoop]
    rw [if_neg h1, if_neg h2, if_pos hterm]
  simp only [tryBody, hmsg, hrun, hretr]
  rw [pollLoop_skip svc collab cb chat_id run_id pre [Except.ok stat] hpre, hlast]

/-- With an existing thread handle and a run that ends in a terminal
failure status, `chat_with_assistant` returns the literal reply and leaves
the store unchanged. -/
theorem chat_with_assistant_failed (svc : AIService)
    (collab : ToolCall → Except String Json) (cb : String → Except String Unit)
    (store : ChatStore) (user_input chat_id : String) (rec : ChatRec)
    (t run_id : String) (pre : List (Except String RunStatusResp))
    (stat : RunStatusResp)
    (hrec : store chat_id = some rec) (ht : rec.thread_id = some t)
    (htne : t ≠ "")
    (hmsg : svc.createMessage t user_input = Except.ok ())
    (hrun : svc.createRun t = Except.ok run_id)
    (hretr : svc.retrieves = pre ++ [Except.ok stat])
    (hpre : ∀ r ∈ pre, ∃ st, r = Except.ok st ∧ st.status ≠ "completed" ∧
      st.status ≠ "requires_action" ∧
      ¬ (["failed", "expired", "cancelled"].contains st.status = true))
    (hterm : ["failed", "expired", "cancelled"].contains stat.status = true) :
    chat_with_assistant svc collab cb store user_input chat_id
      = some (Except.ok (failedStateReply stat.status), store) := by
  unfold chat_with_assistant
  rw [threadSetup_existing svc store chat_id rec t hrec ht htne]
  simp [tryBody_failed svc collab cb chat_id t user_input run_id pre stat hmsg
    hrun hretr hpre hterm]

/-- C1 (counterexample): when the chat has no thread handle yet and the AI
service raises "boom" while creating one, `chat_with_assistant` propagates
the exception (the thread setup sits before the `try` block), refuting the
claim that the operation never raises to its caller. -/
theorem c1_counterexample :
    chat_with_assistant svcBoomThread collabNull emit_tool_call_cb storeNoThread
        "hi" "chat1"
      = some (Except.error "boom", storeNoThread) := by
  rfl

/-- C1 (amended): once the thread handle is established (already present,
or lazily created without an exception), `chat_with_assistant` never
raises: every produced result is a normal string, and an exception raised
anywhere inside the `try` block (message creation, run creation, polling,
tool handling, message listing) yields the literal reply
`"Error: <message>"`. -/
theorem c1_amended (svc : AIService) (collab : ToolCall → Except String Json)
    (cb : String → Except String Unit) (store : ChatStore)
    (user_input chat_id thread_id : String) (store' : ChatStore)
    (hsetup : threadSetup svc store chat_id = Except.ok (thread_id, store')) :
    (∀ res st2, chat_with_assistant svc collab cb store user_input chat_id
        = some (res, st2) → ∃ s, res = Except.ok s) ∧
    (∀ m, tryBody svc collab cb chat_id thread_id user_input
        = some (Except.error m) →
      chat_with_assistant svc collab cb store user_input chat_id
        = some (Except.ok ("Error: " ++ m), store')) := by
  have hch : chat_with_assistant svc collab cb store user_input chat_id
      = match tryBody svc collab cb chat_id thread_id user_input with
        | none => none
        | some (Except.ok response) => some (Except.ok response, store')
        | some (Except.error e) => some (Except.ok ("Error: " ++ e), store') := by
    unfold chat_with_assistant
    rw [hsetup]
  constructor
  · intro res st2 h
    rw [hch] at h
    cases htb : tryBody svc collab cb chat_id thread_id user_input with
    | none => rw [htb] at h; simp at h
    | some r =>
      cases r with
      | ok s =>
        rw [htb] at h
        simp at h
        exact ⟨s, h.1.symm⟩
      | error m =>
        rw [htb] at h
        simp at h
        exact ⟨"Error: " ++ m, h.1.symm⟩
  · intro m htb
    rw [hch, htb]

/-- C1 (amended) at a concrete input: a chat with an existing thread whose
message-creation call raises "rate limited" yields the literal reply. -/
theorem c1_amended_witness :
    chat_with_assistant svcMsgBoom collabNull emit_tool_call_cb storeWithThread
        "hi" "chat1"
      = some (Except.ok "Error: rate limited", storeWithThread) :=
  (c1_amended svcMsgBoom collabNull emit_tool_call_cb storeWithThread
      "hi" "chat1" "t1" storeWithThread rfl).2 "rate limited" rfl

/-- C3: when the polled run ends in a `failed`/`expired`/`cancelled`
status, `chat_with_assistant` returns (not raises) the literal
terminal-state reply instructing the caller to start a new chat, and
`handle_send_message` appends that returned string to the chat's message
log as an "assistant"-role message. -/
theorem c3_terminal_run (svc : AIService) (collab : ToolCall → Except String Json)
    (fresh_id sid : String) (data : SendMsgData) (st : BackendSt)
    (content chat_id : String) (rec : ChatRec) (t run_id : String)
    (pre : List (Except String RunStatusResp)) (stat : RunStatusResp)
    (hcontent : data.content = some content) (hcne : content ≠ "")
    (hcid : data.chat_id = some chat_id) (hcidne : chat_id ≠ "")
    (hrec : st.chats chat_id = some rec)
    (ht : rec.thread_id = some t) (htne : t ≠ "")
    (hmsg : svc.createMessage t content = Except.ok ())
    (hrun : svc.createRun t = Except.ok run_id)
    (hretr : svc.retrieves = pre ++ [Except.ok stat])
    (hpre : ∀ r ∈ pre, ∃ s, r = Except.ok s ∧ s.status ≠ "completed" ∧
      s.status ≠ "requires_action" ∧
      ¬ (["failed", "expired", "cancelled"].contains s.status = true))
    (hterm : ["failed", "expired", "cancelled"].contains stat.status = true) :
    ∃ (chats1 chats3 : ChatStore) (rec3 : ChatRec),
      add_chat_message st.chats chat_id ("user", content) = Except.ok chats1 ∧
      chat_with_assistant svc collab emit_tool_call_cb chats1 content chat_id
        = some (Except.ok (failedStateReply stat.status), chats1) ∧
      handle_send_message svc collab fresh_id sid data st
        = some ({ reg := join_chat st.reg sid chat_id, chats := chats3 },
            (get_chat_members (join_chat st.reg sid chat_id) chat_id).map
              (fun m => Ev.message chat_id (failedStateReply stat.status) m)) ∧
      chats3 chat_id = some rec3 ∧
      rec3.messages = rec.messages ++
        [("user", content), ("assistant", failedStateReply stat.status)] := by
  have h1 := add_chat_message_ok st.chats chat_id rec ("user", content) hrec
  set rec1 : ChatRec :=
    { rec with messages := rec.messages ++ [("user", content)] } with hrec1def
  set chats1 : ChatStore :=
    fun c => if c = chat_id then some rec1 else st.chats c with hchats1def
  have hrec1 : chats1 chat_id = some rec1 := by
    rw [hchats1def]
    simp
  have ht1 : rec1.thread_id = some t := ht
  have hcwa := chat_with_assistant_failed svc collab emit_tool_call_cb chats1
    content chat_id rec1 t run_id pre stat hrec1 ht1 htne hmsg hrun hretr hpre
    hterm
  have h3 := add_chat_message_ok chats1 chat_id rec1
    ("assistant", failedStateReply stat.status) hrec1
  set rec3 : ChatRec :=
    { rec1 with
        messages := rec1.messages ++ [("assistant", failedStateReply stat.status)] }
    with hrec3def
  set chats3 : ChatStore :=
    fun c => if c = chat_id then some rec3 else chats1 c with hchats3def
  refine ⟨chats1, chats3, rec3, h1, hcwa, ?_, ?_, ?_⟩
  · simp only [handle_send_message, hcontent, hcid, truthyStr_some content hcne,
      truthyStr_some chat_id hcidne, h1, hcwa, h3]
  · rw [hchats3def]
    simp
  · rw [hrec3def, hrec1def]
    simp

/-- C3 at a concrete input: one poll returning status "failed". -/
theorem c3_terminal_run_witness :
    ∃ (chats1 chats3 : ChatStore) (rec3 : ChatRec),
      add_chat_message storeWithThread "chat1" ("user", "hi")
        = Except.ok chats1 ∧
      chat_with_assistant svcFailedRun collabNull emit_tool_call_cb chats1
          "hi" "chat1"
        = some (Except.ok (failedStateReply "failed"), chats1) ∧
      handle_send_message svcFailedRun collabNull "f1" "s1"
          { chat_id := some "chat1", content := some "hi", location := none }
          { reg := emptyRegistry, chats := storeWithThread }
        = some ({ reg := join_chat emptyRegistry "s1" "chat1", chats := chats3 },
            (get_chat_members (join_chat emptyRegistry "s1" "chat1") "chat1").map
              (fun m => Ev.message "chat1" (failedStateReply "failed") m)) ∧
      chats3 "chat1" = some rec3 ∧
      rec3.messages
        = [("user", "hi"), ("assistant", failedStateReply "failed")] :=
  c3_terminal_run svcFailedRun collabNull "f1" "s1"
    { chat_id := some "chat1", content := some "hi", location := none }
    { reg := emptyRegistry, chats := storeWithThread }
    "hi" "chat1" { thread_id := some "t1", messages := [], location := Json.null }
    "t1" "run1" [] { status := "failed", toolCalls := [] }
    rfl (by decide) rfl (by decide) rfl rfl (by decide) rfl rfl rfl
    (by intro r hr; simp at hr) (by decide)

/-! ## Image analyzer lemmas -/

theorem setPhotoDesc_length (l : List Photo) (n : Nat) (v : String) :
    (setPhotoDesc l n v).length = l.length := by
  induction l generalizing n with
  | nil => rfl
  | cons ph rest ih =>
    cases n with
    | zero => rfl
    | succ m => simp [setPhotoDesc, ih]

theorem setPhotoDesc_get_ne (l : List Photo) (n i : Nat) (v : String)
    (h : i ≠ n) : (setPhotoDesc l n v)[i]? = l[i]? := by
  induction l generalizing n i with
  | nil => rfl
  | cons ph rest ih =>
    cases n with
    | zero =>
      cases i with
      | zero => exact absurd rfl h
      | succ j => simp [setPhotoDesc]
    | succ m =>
      cases i with
      | zero => simp [setPhotoDesc]
      | succ j =>
        simp only [setPhotoDesc, List.getElem?_cons_succ]
        exact ih m j (fun hh => h (by rw [hh]))

theorem setPhotoDesc_get_eq (l : List Photo) (n : Nat) (v : String) :
    (setPhotoDesc l n v)[n]?
      = l[n]?.map (fun ph => { ph with description := some v }) := by
  induction l generalizing n with
  | nil => rfl
  | cons ph rest ih =>
    cases n with
    | zero => simp [setPhotoDesc]
    | succ m =>
      simp only [setPhotoDesc, List.getElem?_cons_succ]
      exact ih m

theorem mergeResults_length (results : List (Nat × Except String String))
    (photos : List Photo) :
    (mergeResults photos results).length = photos.length := by
  induction results generalizing photos with
  | nil => rfl
  | cons p rest ih =>
    simp only [mergeResults]
    by_cases h : p.1 < photos.length
    · rw [if_pos h, ih, setPhotoDesc_length]
    · rw [if_neg h, ih]

theorem mergeResults_get_notin (results : List (Nat × Except String String))
    (photos : List Photo) (i : Nat) (h : ∀ p ∈ results, p.1 ≠ i) :
    (mergeResults photos results)[i]? = photos[i]? := by
  induction results generalizing photos with
  | nil => rfl
  | cons p rest ih =>
    simp only [mergeResults]
    rw [ih _ (fun q hq => h q (List.mem_cons_of_mem _ hq))]
    have hp := h p (List.mem_cons_self p rest)
    by_cases hlt : p.1 < photos.length
    · rw [if_pos hlt]
      exact setPhotoDesc_get_ne photos p.1 i (workVal p.2) (fun he => hp he.symm)
    · rw [if_neg hlt]

theorem mergeResults_get_mem (results : List (Nat × Except String String))
    (photos : List Photo) (i : Nat) (o : Except String String)
    (hpair : List.Pairwise (fun a b => a.1 ≠ b.1) results)
    (hmem : (i, o) ∈ results) (hlt : i < photos.length) :
    (mergeResults photos results)[i]?
      = photos[i]?.map
          (fun ph => { ph with description := some (workVal o) }) := by
  induction results generalizing photos with
  | nil => simp at hmem
  | cons p rest ih =>
    rcases List.mem_cons.mp hmem with hpe | hrest
    · subst hpe
      simp only [mergeResults]
      rw [if_pos hlt]
      have hnot : ∀ q ∈ rest, q.1 ≠ i :=
        fun q hq => fun he =>
          (List.pairwise_cons.mp hpair).1 q hq (by rw [he])
      rw [mergeResults_get_notin rest _ i hnot]
      exact setPhotoDesc_get_eq photos i (workVal o)
    · have hpne : p.1 ≠ i := by
        have := (List.pairwise_cons.mp hpair).1 (i, o) hrest
        exact fun he => this (by rw [he])
      simp only [mergeResults]
      by_cases hl : p.1 < photos.length
      · rw [if_pos hl]
        rw [ih (setPhotoDesc photos p.1 (workVal p.2))
          (List.pairwise_cons.mp hpair).2 hrest
          (by rw [setPhotoDesc_length]; exact hlt)]
        rw [setPhotoDesc_get_ne photos p.1 i (workVal p.2)
          (fun he => hpne he.symm)]
      · rw [if_neg hl]
        exact ih photos (List.pairwise_cons.mp hpair).2 hrest hlt

theorem photoDataAux_bound (cfg : GmCfg) (k : Nat) (photos : List Photo) :
    ∀ t ∈ photoDataAux cfg k photos, k ≤ t.2.1 ∧ t.2.1 < k + photos.length := by
  induction photos generalizing k with
  | nil => intro t ht; simp [photoDataAux] at ht
  | cons ph rest ih =>
    intro t ht
    cases h1 : truthyStr ph.description with
    | some d =>
      rw [photoDataAux, h1] at ht
      have := ih (k + 1) t ht
      constructor
      · omega
      · simp only [List.length_cons]
        omega
    | none =>
      cases h2 : truthyStr ph.name with
      | none =>
        rw [photoDataAux, h1, h2] at ht
        have := ih (k + 1) t ht
        constructor
        · omega
        · simp only [List.length_cons]
          omega
      | some nm =>
        rw [photoDataAux, h1, h2] at ht
        rcases List.mem_cons.mp ht with hte | htr
        · subst hte
          constructor
          · exact Nat.le_refl k
          · simp only [List.length_cons]
            omega
        · have := ih (k + 1) t htr
          constructor
          · omega
          · simp only [List.length_cons]
            omega

theorem photoDataAux_length (cfg : GmCfg) (k : Nat) (photos : List Photo) :
    (photoDataAux cfg k photos).length ≤ photos.length := by
  induction photos generalizing k with
  | nil => exact Nat.le_refl 0
  | cons ph rest ih =>
    cases h1 : truthyStr ph.description with
    | some d =>
      rw [photoDataAux, h1]
      simp only [List.length_cons]
      exact Nat.le_succ_of_le (ih (k + 1))
    | none =>
      cases h2 : truthyStr ph.name with
      | none =>
        rw [photoDataAux, h1, h2]
        simp only [List.length_cons]
        exact Nat.le_succ_of_le (ih (k + 1))
      | some nm =>
        rw [photoDataAux, h1, h2]
        simp only [List.length_cons]
        exact Nat.succ_le_succ (ih (k + 1))

theorem photoDataAux_pairwise (cfg : GmCfg) (k : Nat) (photos : List Photo) :
    List.Pairwise (fun a b : String × Nat × String => a.2.1 < b.2.1)
      (photoDataAux cfg k photos) := by
  induction photos generalizing k with
  | nil => simp [photoDataAux]
  | cons ph rest ih =>
    cases h1 : truthyStr ph.description with
    | some d =>
      rw [photoDataAux, h1]
      exact ih (k + 1)
    | none =>
      cases h2 : truthyStr ph.name with
      | none =>
        rw [photoDataAux, h1, h2]
        exact ih (k + 1)
      | some nm =>
        rw [photoDataAux, h1, h2]
        refine List.Pairwise.cons ?_ (ih (k + 1))
        intro b hb
        have hbd := (photoDataAux_bound cfg (k + 1) rest b hb).1
        show k < b.2.1
        omega

theorem formatPhotos_length (k : Nat) (l : List Photo) :
    (formatPhotos k l).length = l.length := by
  induction l generalizing k with
  | nil => rfl
  | cons ph rest ih => simp [formatPhotos, ih]

theorem formatPhotos_get (k : Nat) (l : List Photo) (i : Nat) :
    (formatPhotos k l)[i]?
      = l[i]?.map (fun ph =>
          ({ googleMapsUri := ph.googleMapsUri, description := ph.description,
             index := k + i } : ImageOut)) := by
  induction l generalizing k i with
  | nil => rfl
  | cons ph rest ih =>
    cases i with
    | zero => simp [formatPhotos]
    | succ j =>
      simp only [formatPhotos, List.getElem?_cons_succ, ih (k + 1) j]
      have : k + 1 + j = k + (j + 1) := by omega
      rw [this]

/-- C4: over the batch of undescribed input photos, `describe_images`
yields exactly one outcome per input index (the description on success,
that index's error value on failure, each independent of its siblings),
and returns the full current photo list — one `\x7buri, description,
index\x7d` entry per photo of the place, hence never fewer entries than
inputs; photos outside the batch keep their existing description. -/
theorem c4_describe_batch (cfg : GmCfg) (store : PlaceStore)
    (worker : String × Nat × String → Except String String) (place_id : String)
    (place_data : PlaceRec) (photos : List Photo)
    (hp : store place_id = some place_data)
    (hph : place_data.photos = some photos) :
    ∃ (l : List ImageOut) (store' : PlaceStore),
      describe_images cfg store worker place_id = (DIResult.out l, store') ∧
      l.length = photos.length ∧
      (photoData cfg photos).length ≤ photos.length ∧
      (∀ i, i < l.length → ∃ e, l[i]? = some e ∧ e.index = i) ∧
      (∀ t ∈ photoData cfg photos, ∃ e, l[t.2.1]? = some e ∧
        e.description = some (workVal (worker t))) ∧
      (∀ i ph, (∀ t ∈ photoData cfg photos, t.2.1 ≠ i) →
        photos[i]? = some ph →
        l[i]?
          = some { googleMapsUri := ph.googleMapsUri
                   description := ph.description
                   index := i }) := by
  have heq : describe_images cfg store worker place_id
      = (DIResult.out (formatPhotos 0 (mergeResults photos
          (describeResults worker (photoData cfg photos)))),
         fun p => if p = place_id then
           some { place_data with photos := some (mergeResults photos
             (describeResults worker (photoData cfg photos))) }
         else store p) := by
    simp only [describe_images, get_images_for_place, hp, hph, Option.getD_some]
  have hml : (mergeResults photos (describeResults worker (photoData cfg photos))).length
      = photos.length :=
    mergeResults_length (describeResults worker (photoData cfg photos)) photos
  have hpairres : List.Pairwise (fun a b : Nat × Except String String => a.1 ≠ b.1)
      (describeResults worker (photoData cfg photos)) := by
    unfold describeResults
    exact List.pairwise_map.mpr
      ((photoDataAux_pairwise cfg 0 photos).imp (fun h => Nat.ne_of_lt h))
  refine ⟨formatPhotos 0 (mergeResults photos
      (describeResults worker (photoData cfg photos))), _, heq, ?_, ?_, ?_, ?_, ?_⟩
  · rw [formatPhotos_length, hml]
  · exact photoDataAux_length cfg 0 photos
  · intro i hi
    rw [formatPhotos_length, hml] at hi
    cases hm : (mergeResults photos (describeResults worker (photoData cfg photos)))[i]? with
    | none =>
      rw [List.getElem?_eq_none_iff, hml] at hm
      omega
    | some ph =>
      refine ⟨{ googleMapsUri := ph.googleMapsUri
                description := ph.description
                index := 0 + i }, ?_, by simp⟩
      rw [formatPhotos_get, hm]
      rfl
  · intro t ht
    have hb := photoDataAux_bound cfg 0 photos t ht
    have hlt : t.2.1 < photos.length := by omega
    have hmm : (t.2.1, worker t)
        ∈ describeResults worker (photoData cfg photos) := by
      unfold describeResults
      exact List.mem_map_of_mem _ ht
    have hmg := mergeResults_get_mem (describeResults worker (photoData cfg photos))
      photos t.2.1 (worker t) hpairres hmm hlt
    cases hg : photos[t.2.1]? with
    | none =>
      rw [List.getElem?_eq_none_iff] at hg
      omega
    | some ph0 =>
      rw [hg] at hmg
      simp only [Option.map_some'] at hmg
      refine ⟨{ googleMapsUri := ph0.googleMapsUri
                description := some (workVal (worker t))
                index := 0 + t.2.1 }, ?_, rfl⟩
      rw [formatPhotos_get, hmg]
      rfl
  · intro i ph hnot hgi
    have hnotr : ∀ p ∈ describeResults worker (photoData cfg photos), p.1 ≠ i := by
      intro p hpmem
      unfold describeResults at hpmem
      rcases List.mem_map.mp hpmem with ⟨t, ht, hteq⟩
      rw [← hteq]
      exact hnot t ht
    have hmn := mergeResults_get_notin (describeResults worker (photoData cfg photos))
      photos i hnotr
    rw [formatPhotos_get, hmn, hgi]
    simp

/-- C4 at a concrete input: two undescribed photos, the second worker
fails. -/
theorem c4_describe_batch_witness :
    ∃ (l : List ImageOut) (store' : PlaceStore),
      describe_images cfgW storeW workerW "p1" = (DIResult.out l, store') ∧
      l.length = photosW.length ∧
      (photoData cfgW photosW).length ≤ photosW.length ∧
      (∀ i, i < l.length → ∃ e, l[i]? = some e ∧ e.index = i) ∧
      (∀ t ∈ photoData cfgW photosW, ∃ e, l[t.2.1]? = some e ∧
        e.description = some (workVal (workerW t))) ∧
      (∀ i ph, (∀ t ∈ photoData cfgW photosW, t.2.1 ≠ i) →
        photosW[i]? = some ph →
        l[i]?
          = some { googleMapsUri := ph.googleMapsUri
                   description := ph.description
                   index := i }) :=
  c4_describe_batch cfgW storeW workerW "p1" placeW photosW rfl rfl
